import Mathlib

/-!
Shallow embedding of the DocsVibe file-routing / model-compatibility engine.

Sources embedded:
* `src/frontend/utils/fileRouter/fileAnalyzer.ts` — file classification
  (`FILE_CATEGORIES`, `detectFileType`, `getFileExtension`, `analyzeFile`).
* `src/frontend/utils/fileRouter` model matcher — family detection
  (`getModelFamily`), capability table (`getModelCapabilities`),
  per-model file caps (`getMaxFilesForModel`, `getMaxFilesForModelAndType`),
  and the compatibility decision (`getCompatibleModels`,
  `checkModelCompatibility`).
* `src/frontend/app/chat/page.tsx` — the client-side short-circuit of
  `handleUploadPDF` for unsupported files.

JavaScript strings are embedded as Lean `String`; character-level
operations (`toLowerCase`, `lastIndexOf`, `slice`, `includes`) are
modelled on `String.toList`.  `String.prototype.toLowerCase` is modelled
with `Char.toLower` (the identifiers and extensions involved are ASCII).
Numbers are `Nat`.  Optional / possibly-`undefined` fields are `Option`.
The floating-point display field `fileSizeMB` of `FileAnalysis` is not
modelled (floating point; no claim depends on it).
-/

/-- JS `s.includes(sub)`: `sub` occurs as a contiguous substring of `s`. -/
def jsIncludes (s sub : String) : Bool :=
  s.toList.tails.any (fun t => sub.toList.isPrefixOf t)

/-- JS `s.toLowerCase()` (ASCII range, via `Char.toLower`). -/
def toLowerStr (s : String) : String :=
  String.mk (s.toList.map Char.toLower)

/-- JS `x || d` for a possibly-`undefined` number (`undefined` and `0` are falsy). -/
def jsOrNat (x : Option Nat) (d : Nat) : Nat :=
  match x with
  | none => d
  | some n => if n = 0 then d else n

/-- JS `s || d` for a string (empty string is falsy). -/
def jsOrStr (s d : String) : String :=
  if s = "" then d else s

/-! ## fileAnalyzer.ts -/

/-- One entry of `FILE_CATEGORIES` (fileAnalyzer.ts). -/
structure FileCategory where
  extensions : List String
  mimeTypes : List String
  category : String
  requiresExtraction : Bool
  supportsNative : Bool
deriving DecidableEq

/-- The `FILE_CATEGORIES` record of fileAnalyzer.ts, as an ordered
association list (JS `Object.entries` iterates in insertion order:
pdf, image, docx, pptx). -/
def FILE_CATEGORIES : List (String × FileCategory) :=
  [ ("pdf",
     { extensions := [".pdf"]
       mimeTypes := ["application/pdf"]
       category := "document"
       requiresExtraction := true
       supportsNative := true })
  , ("image",
     { extensions := [".jpg", ".jpeg", ".png", ".gif", ".bmp", ".webp"]
       mimeTypes := ["image/jpeg", "image/png", "image/gif", "image/bmp", "image/webp"]
       category := "image"
       requiresExtraction := false
       supportsNative := true })
  , ("docx",
     { extensions := [".doc", ".docx"]
       mimeTypes := ["application/msword",
                     "application/vnd.openxmlformats-officedocument.wordprocessingml.document"]
       category := "document"
       requiresExtraction := true
       supportsNative := false })
  , ("pptx",
     { extensions := [".ppt", ".pptx"]
       mimeTypes := ["application/vnd.ms-powerpoint",
                     "application/vnd.openxmlformats-officedocument.presentationml.presentation"]
       category := "document"
       requiresExtraction := true
       supportsNative := false })
  ]

/-- The loop body of `detectFileType`: scan the category entries in order;
for each, first check the extension list, then the MIME list, returning the
first hit. -/
def detectAux (l : List (String × FileCategory)) (extension mimeType : String) :
    Option String :=
  match l with
  | [] => none
  | (fileType, info) :: rest =>
    if info.extensions.contains extension then some fileType
    else if info.mimeTypes.contains mimeType then some fileType
    else detectAux rest extension mimeType

/-- TS `detectFileType(extension, mimeType)` of fileAnalyzer.ts. -/
def detectFileType (extension mimeType : String) : Option String :=
  detectAux FILE_CATEGORIES extension mimeType

/-- Suffix of a character list starting at its LAST dot
(JS `filename.slice(filename.lastIndexOf('.'))`), `none` when there is no dot. -/
def extFrom : List Char → Option (List Char)
  | [] => none
  | c :: rest =>
    match extFrom rest with
    | some s => some s
    | none => if c = '.' then some (c :: rest) else none

/-- TS `getFileExtension(filename)` of fileAnalyzer.ts:
`lastDot !== -1 ? filename.slice(lastDot).toLowerCase() : ''`. -/
def getFileExtension (filename : String) : String :=
  match extFrom filename.toList with
  | none => ""
  | some s => String.mk (s.map Char.toLower)

/-- The browser `File` object fields read by this code: `name`, `size`
(bytes) and `type` (declared MIME type). -/
structure JSFile where
  name : String
  size : Nat
  type : String
deriving DecidableEq

/-- The `FileAnalysis` result of fileAnalyzer.ts (without the
floating-point `fileSizeMB` field). `fileType = none` encodes the TS `null`. -/
structure FileAnalysis where
  filename : String
  fileSize : Nat
  fileExtension : String
  fileType : Option String
  category : String
  isSupported : Bool
deriving DecidableEq

/-- The `FILE_CATEGORIES[fileType]` lookup. -/
def lookupCategory (fileType : String) : Option FileCategory :=
  (FILE_CATEGORIES.find? (fun p => p.1 = fileType)).map (fun p => p.2)

/-- TS `analyzeFile(file)` of fileAnalyzer.ts. -/
def analyzeFile (file : JSFile) : FileAnalysis :=
  let fileExtension := getFileExtension file.name
  let fileType := detectFileType fileExtension file.type
  let fileInfo := fileType.bind lookupCategory
  { filename := file.name
    fileSize := file.size
    fileExtension := fileExtension
    fileType := fileType
    category :=
      match fileInfo with
      | some info => jsOrStr info.category "unknown"
      | none => "unknown"
    isSupported := fileType.isSome }

/-! ## Model matcher -/

/-- TS `getModelFamily(modelId)`: case-insensitive substring checks in a
fixed priority order. -/
def getModelFamily (modelId : String) : String :=
  let modelLower := toLowerStr modelId
  if jsIncludes modelLower "deepseek" then "deepseek"
  else if jsIncludes modelLower "pixtral" then "pixtral"
  else if jsIncludes modelLower "llama" && jsIncludes modelLower "vision" then "llama-vision"
  else if jsIncludes modelLower "qwen" then "qwen"
  else if jsIncludes modelLower "llama" then "llama"
  else if jsIncludes modelLower "gemma" then "gemma"
  else "unknown"

/-- The capability record returned by `getModelCapabilities`.  Fields that
are absent on some branches of the TS object literal are `Option`
(absent = `none`, i.e. JS `undefined`). -/
structure ModelCapabilities where
  supportsPdf : Bool
  supportsImages : Bool
  maxPdfCount : Option Nat
  maxImageCount : Option Nat
  contextWindow : Nat
  nativePdfSupport : Option Bool
  nativeImageSupport : Option Bool
deriving DecidableEq

/-- TS `getModelCapabilities(modelId)`. -/
def getModelCapabilities (modelId : String) : ModelCapabilities :=
  let modelFamily := getModelFamily modelId
  if modelFamily = "deepseek" then
    { supportsPdf := true
      supportsImages := false
      maxPdfCount := some 3
      maxImageCount := none
      contextWindow := 128000
      nativePdfSupport := some true
      nativeImageSupport := none }
  else if modelFamily = "pixtral" ∨ modelFamily = "llama-vision" then
    { supportsPdf := false
      supportsImages := true
      maxPdfCount := none
      maxImageCount := some 10
      contextWindow := 32000
      nativePdfSupport := none
      nativeImageSupport := some true }
  else
    { supportsPdf := false
      supportsImages := false
      maxPdfCount := some 1
      maxImageCount := none
      contextWindow := 8000
      nativePdfSupport := some false
      nativeImageSupport := none }

/-- TS `getMaxFilesForModel(modelId, fileType)` (the capability-table-driven
cap implementation). -/
def getMaxFilesForModel (modelId fileType : String) : Nat :=
  let capabilities := getModelCapabilities modelId
  let modelFamily := getModelFamily modelId
  if fileType = "pdf" ∧ capabilities.supportsPdf = true then
    jsOrNat capabilities.maxPdfCount 1
  else if fileType = "image" ∧ capabilities.supportsImages = true then
    jsOrNat capabilities.maxImageCount 1
  else if fileType = "docx" ∨ fileType = "pptx" then
    (if modelFamily = "deepseek" then 3 else 1)
  else 1

/-- TS `getMaxFilesForModelAndType(modelId, fileType)` (the model-and-type-aware
cap implementation). -/
def getMaxFilesForModelAndType (modelId fileType : String) : Nat :=
  let modelFamily := getModelFamily modelId
  if modelFamily = "deepseek" ∧
      (fileType = "pdf" ∨ fileType = "docx" ∨ fileType = "pptx") then 3
  else if (modelFamily = "pixtral" ∨ modelFamily = "llama-vision") ∧
      fileType = "image" then 10
  else 1

/-- The TS union `string[] | 'all'` of `ModelCompatibility.compatibleModels`. -/
inductive CompatModels where
  | all : CompatModels
  | list : List String → CompatModels
deriving DecidableEq

/-- The `ModelCompatibility` record returned by `getCompatibleModels`. -/
structure ModelCompatibility where
  compatibleModels : CompatModels
  recommendedModel : Option String
  reason : String
  maxFiles : Nat
  supportsNative : Bool
  category : String
deriving DecidableEq

/-- TS `getCompatibleModels(fileType, fileCategory)`: the generic per-type
compatibility table (its `maxFiles` is the generic, not model-aware, cap). -/
def getCompatibleModels (fileType fileCategory : String) : ModelCompatibility :=
  if fileType = "pdf" then
    { compatibleModels := CompatModels.list
        ["deepseek-chat-v3.2-exp", "deepseek-chat-v3.2-coder", "deepseek-reasoner-r1"]
      recommendedModel := some "deepseek-chat-v3.2-exp"
      reason := "DeepSeek models support native PDF reading with 128K context"
      maxFiles := 3
      supportsNative := true
      category := "pdf_analysis" }
  else if fileType = "image" then
    { compatibleModels := CompatModels.list ["pixtral-12b", "llama-3.2-vision-90b"]
      recommendedModel := some "pixtral-12b"
      reason := "Vision models can analyze images directly"
      maxFiles := 10
      supportsNative := true
      category := "vision" }
  else if fileType = "docx" ∨ fileType = "pptx" then
    { compatibleModels := CompatModels.all
      recommendedModel := some "deepseek-chat-v3.2-exp"
      reason := "Text will be extracted and sent to any model. DeepSeek supports up to 3 files."
      maxFiles := 3
      supportsNative := false
      category := "general" }
  else
    { compatibleModels := CompatModels.list []
      recommendedModel := none
      reason := "Unsupported file type"
      maxFiles := 0
      supportsNative := false
      category := "unknown" }

/-- The `CompatibilityCheck` decision record. -/
structure CompatibilityCheck where
  isCompatible : Bool
  currentModel : String
  fileType : String
  fileCount : Nat
  maxFiles : Nat
  exceedsLimit : Bool
  recommendedModel : Option String
  compatibleModels : CompatModels
  reason : String
  actionRequired : Bool
deriving DecidableEq

/-- TS `checkModelCompatibility(currentModel, fileType, fileCategory, fileCount)`. -/
def checkModelCompatibility (currentModel fileType fileCategory : String)
    (fileCount : Nat) : CompatibilityCheck :=
  let compatibilityInfo := getCompatibleModels fileType fileCategory
  let modelFamily := getModelFamily currentModel
  let compatibleModels := compatibilityInfo.compatibleModels
  let isCompatible :=
    (match compatibleModels with
     | CompatModels.all => true
     | CompatModels.list l => l.contains currentModel)
    || (["deepseek", "pixtral", "llama-vision"].contains modelFamily)
  let maxFiles := getMaxFilesForModelAndType currentModel fileType
  let exceedsLimit := decide (fileCount > maxFiles)
  { isCompatible := isCompatible && !exceedsLimit
    currentModel := currentModel
    fileType := fileType
    fileCount := fileCount
    maxFiles := maxFiles
    exceedsLimit := exceedsLimit
    recommendedModel := compatibilityInfo.recommendedModel
    compatibleModels := compatibleModels
    reason := compatibilityInfo.reason
    actionRequired := !isCompatible || exceedsLimit }

/-! ## chat/page.tsx — client-side pre-check of `handleUploadPDF` -/

/-- The `Suggestion` record of suggestionFormatter.ts.  `action = none`
encodes the TS `null` action. -/
structure Suggestion where
  type : String
  title : String
  message : String
  details : Option String
  action : Option String
  actionText : String
  severity : String
  recommendedModel : Option String
  compatibleModels : List String
  maxFiles : Option Nat
  currentCount : Option Nat
deriving DecidableEq

/-- Outcome of the client-side step of `handleUploadPDF`: either the
handler short-circuits with a modal suggestion and returns, or it goes on
to call the server-side analysis (`analyzeFileUpload`). -/
inductive UploadStep where
  | shortCircuit : Suggestion → UploadStep
  | serverAnalyze : UploadStep
deriving DecidableEq

/-- The error suggestion built inline by `handleUploadPDF` for an
unsupported file type. -/
def unsupportedFileSuggestion (fileExtension : String) : Suggestion :=
  { type := "error"
    title := "❌ Unsupported File Type"
    message := fileExtension ++ " files are not supported."
    details := some "Supported file types:\n\n• PDF (.pdf)\n• Word Documents (.docx)\n• PowerPoint (.pptx)\n• Images (.jpg, .png, .gif, .webp)"
    action := none
    actionText := "OK"
    severity := "high"
    recommendedModel := none
    compatibleModels := []
    maxFiles := none
    currentCount := none }

/-- Step 1 of `handleUploadPDF` (chat/page.tsx): run `analyzeFile` on the
selected file; when unsupported, open the error modal and return without
calling the server; otherwise proceed to the backend analysis. -/
def handleUploadClientCheck (file : JSFile) : UploadStep :=
  let clientAnalysis := analyzeFile file
  if clientAnalysis.isSupported = false then
    UploadStep.shortCircuit (unsupportedFileSuggestion clientAnalysis.fileExtension)
  else
    UploadStep.serverAnalyze

/-! ## Statement-side helpers -/

/-- The category a file EXTENSION belongs to: the first `FILE_CATEGORIES`
entry whose extension list contains it (extension match alone). -/
def extCategoryOf (extension : String) : Option String :=
  (FILE_CATEGORIES.find? (fun p => p.2.extensions.contains extension)).map
    (fun p => p.1)

/-- The first operand of the `isCompatible` conjunction inside
`checkModelCompatibility` (before the file-count limit is applied). -/
def rawCompatible (currentModel fileType fileCategory : String) : Bool :=
  (match (getCompatibleModels fileType fileCategory).compatibleModels with
   | CompatModels.all => true
   | CompatModels.list l => l.contains currentModel)
  || (["deepseek", "pixtral", "llama-vision"].contains (getModelFamily currentModel))

/-! ## Basic lemmas -/

lemma checkModelCompatibility_maxFiles (m t c : String) (n : Nat) :
    (checkModelCompatibility m t c n).maxFiles = getMaxFilesForModelAndType m t := rfl

lemma checkModelCompatibility_exceedsLimit (m t c : String) (n : Nat) :
    (checkModelCompatibility m t c n).exceedsLimit =
      decide (n > getMaxFilesForModelAndType m t) := rfl

lemma checkModelCompatibility_isCompatible (m t c : String) (n : Nat) :
    (checkModelCompatibility m t c n).isCompatible =
      (rawCompatible m t c && !(decide (n > getMaxFilesForModelAndType m t))) := rfl

lemma checkModelCompatibility_actionRequired (m t c : String) (n : Nat) :
    (checkModelCompatibility m t c n).actionRequired =
      (!(rawCompatible m t c) || decide (n > getMaxFilesForModelAndType m t)) := rfl

lemma getModelFamily_cases (m : String) :
    getModelFamily m = "deepseek" ∨ getModelFamily m = "pixtral" ∨
    getModelFamily m = "llama-vision" ∨ getModelFamily m = "qwen" ∨
    getModelFamily m = "llama" ∨ getModelFamily m = "gemma" ∨
    getModelFamily m = "unknown" := by
  simp only [getModelFamily]
  split_ifs <;> simp

/-! ## Claim theorems -/

/-- C2: for every model identifier, file type, file category and count, the
`maxFiles` field of the decision returned by `checkModelCompatibility`
equals the model-and-type-aware cap (3 for deepseek with pdf/docx/pptx,
10 for pixtral or llama-vision with image, 1 otherwise), while the generic
per-type table entry for docx says 3. -/
theorem checkModelCompatibility_maxFiles_model_aware (m t c : String) (n : Nat) :
    ((checkModelCompatibility m t c n).maxFiles =
      if getModelFamily m = "deepseek" ∧ (t = "pdf" ∨ t = "docx" ∨ t = "pptx") then 3
      else if (getModelFamily m = "pixtral" ∨ getModelFamily m = "llama-vision") ∧
          t = "image" then 10
      else 1)
    ∧ (getCompatibleModels "docx" c).maxFiles = 3 := by
  constructor
  · rfl
  · rfl

/-- C3: the decision's `exceedsLimit` flag is true exactly when the file
count strictly exceeds the decision's `maxFiles`; at the boundary a
pixtral model with 10 images does not exceed, with 11 it does. -/
theorem checkModelCompatibility_exceedsLimit_iff (m t c : String) (n : Nat) :
    ((checkModelCompatibility m t c n).exceedsLimit = true ↔
      n > (checkModelCompatibility m t c n).maxFiles)
    ∧ (checkModelCompatibility "pixtral-12b" "image" "image" 10).exceedsLimit = false
    ∧ (checkModelCompatibility "pixtral-12b" "image" "image" 11).exceedsLimit = true := by
  refine ⟨?_, by decide, by decide⟩
  rw [checkModelCompatibility_exceedsLimit, checkModelCompatibility_maxFiles]
  exact decide_eq_true_iff

/-- C4: in every decision returned by `checkModelCompatibility`,
`actionRequired` is true exactly when the decision's `isCompatible` is
false or its `exceedsLimit` is true. -/
theorem checkModelCompatibility_actionRequired_iff (m t c : String) (n : Nat) :
    (checkModelCompatibility m t c n).actionRequired = true ↔
      ((checkModelCompatibility m t c n).isCompatible = false ∨
       (checkModelCompatibility m t c n).exceedsLimit = true) := by
  rw [checkModelCompatibility_actionRequired, checkModelCompatibility_isCompatible,
    checkModelCompatibility_exceedsLimit]
  generalize rawCompatible m t c = a
  generalize decide (n > getMaxFilesForModelAndType m t) = e
  cases a <;> cases e <;> decide

/-- C9: any model whose family is deepseek, pixtral or llama-vision is
deemed compatible with every supported file type (pdf, image, docx, pptx)
as long as the file count does not exceed that model's cap — the blanket
family-membership test ignores the per-family capability table. -/
theorem familyWhitelist_isCompatible (m t c : String) (n : Nat)
    (hfam : getModelFamily m = "deepseek" ∨ getModelFamily m = "pixtral" ∨
      getModelFamily m = "llama-vision")
    (ht : t = "pdf" ∨ t = "image" ∨ t = "docx" ∨ t = "pptx")
    (hn : n ≤ getMaxFilesForModelAndType m t) :
    (checkModelCompatibility m t c n).isCompatible = true := by
  rw [checkModelCompatibility_isCompatible]
  have he : decide (n > getMaxFilesForModelAndType m t) = false := by
    simp [Nat.not_lt.mpr hn]
  have ha : (["deepseek", "pixtral", "llama-vision"] : List String).contains
      (getModelFamily m) = true := by
    rcases hfam with h | h | h <;> rw [h] <;> decide
  have hr : rawCompatible m t c = true := by
    unfold rawCompatible
    rw [ha]
    simp
  rw [hr, he]
  decide

/-- C9 witness: a pixtral-family model with a single pdf — a combination
`getModelCapabilities` marks unsupported — is reported compatible. -/
theorem familyWhitelist_isCompatible_witness :
    (getModelFamily "pixtral-12b" = "deepseek" ∨ getModelFamily "pixtral-12b" = "pixtral" ∨
      getModelFamily "pixtral-12b" = "llama-vision")
    ∧ (("pdf" : String) = "pdf" ∨ ("pdf" : String) = "image" ∨ ("pdf" : String) = "docx" ∨
      ("pdf" : String) = "pptx")
    ∧ 1 ≤ getMaxFilesForModelAndType "pixtral-12b" "pdf"
    ∧ (checkModelCompatibility "pixtral-12b" "pdf" "document" 1).isCompatible = true :=
  ⟨by decide, by decide, by decide,
    familyWhitelist_isCompatible "pixtral-12b" "pdf" "document" 1
      (by decide) (by decide) (by decide)⟩

/-- C10: the two cap implementations agree — `getMaxFilesForModel` (driven
by the capability table) returns the same value as
`getMaxFilesForModelAndType` for every model identifier and file type. -/
theorem getMaxFilesForModel_agrees (m t : String) :
    getMaxFilesForModel m t = getMaxFilesForModelAndType m t := by
  have h := getModelFamily_cases m
  unfold getMaxFilesForModel getMaxFilesForModelAndType getModelCapabilities
  rcases h with h | h | h | h | h | h | h <;> rw [h] <;>
    by_cases h1 : t = "pdf" <;> by_cases h2 : t = "image" <;>
    by_cases h3 : t = "docx" <;> by_cases h4 : t = "pptx" <;>
    simp_all [jsOrNat]

/-- C5: a model identifier containing the substring "deepseek" in any
letter case resolves to family "deepseek", and its caps for pdf, docx and
pptx all equal 3. -/
theorem deepseek_family_caps (modelId : String)
    (h : jsIncludes (toLowerStr modelId) "deepseek" = true) :
    getModelFamily modelId = "deepseek"
    ∧ getMaxFilesForModelAndType modelId "pdf" = 3
    ∧ getMaxFilesForModelAndType modelId "docx" = 3
    ∧ getMaxFilesForModelAndType modelId "pptx" = 3 := by
  have hf : getModelFamily modelId = "deepseek" := by
    simp only [getModelFamily, h, if_true]
  refine ⟨hf, ?_, ?_, ?_⟩ <;> simp [getMaxFilesForModelAndType, hf]

/-- C5 witness at the mixed-case identifier "DeepSeek-R1". -/
theorem deepseek_family_caps_witness :
    jsIncludes (toLowerStr "DeepSeek-R1") "deepseek" = true
    ∧ (getModelFamily "DeepSeek-R1" = "deepseek"
      ∧ getMaxFilesForModelAndType "DeepSeek-R1" "pdf" = 3
      ∧ getMaxFilesForModelAndType "DeepSeek-R1" "docx" = 3
      ∧ getMaxFilesForModelAndType "DeepSeek-R1" "pptx" = 3) :=
  ⟨by decide, deepseek_family_caps "DeepSeek-R1" (by decide)⟩

/-- C6: a model identifier containing none of the family markers
(deepseek, pixtral, qwen, llama, gemma — no "llama" also rules out
"llama"+"vision") resolves to family "unknown", and its cap for every
file type equals 1. -/
theorem unknown_family_caps (modelId t : String)
    (h1 : jsIncludes (toLowerStr modelId) "deepseek" = false)
    (h2 : jsIncludes (toLowerStr modelId) "pixtral" = false)
    (h3 : jsIncludes (toLowerStr modelId) "qwen" = false)
    (h4 : jsIncludes (toLowerStr modelId) "llama" = false)
    (h5 : jsIncludes (toLowerStr modelId) "gemma" = false) :
    getModelFamily modelId = "unknown"
    ∧ getMaxFilesForModelAndType modelId t = 1 := by
  have hf : getModelFamily modelId = "unknown" := by
    simp [getModelFamily, h1, h2, h3, h4, h5]
  refine ⟨hf, ?_⟩
  simp [getMaxFilesForModelAndType, hf]

/-- C6 witness at "gpt-4o" with file type "pdf". -/
theorem unknown_family_caps_witness :
    jsIncludes (toLowerStr "gpt-4o") "deepseek" = false
    ∧ jsIncludes (toLowerStr "gpt-4o") "pixtral" = false
    ∧ jsIncludes (toLowerStr "gpt-4o") "qwen" = false
    ∧ jsIncludes (toLowerStr "gpt-4o") "llama" = false
    ∧ jsIncludes (toLowerStr "gpt-4o") "gemma" = false
    ∧ (getModelFamily "gpt-4o" = "unknown"
      ∧ getMaxFilesForModelAndType "gpt-4o" "pdf" = 1) :=
  ⟨by decide, by decide, by decide, by decide, by decide,
    unknown_family_caps "gpt-4o" "pdf" (by decide) (by decide) (by decide)
      (by decide) (by decide)⟩

lemma extFrom_eq_none_of_no_dot (cs : List Char) (h : ('.' : Char) ∉ cs) :
    extFrom cs = none := by
  induction cs with
  | nil => rfl
  | cons c rest ih =>
    have hc : ¬(c = '.') := fun e => h (e ▸ List.mem_cons_self c rest)
    have hrest : ('.' : Char) ∉ rest := fun hr => h (List.mem_cons_of_mem c hr)
    simp [extFrom, ih hrest, hc]

lemma extFrom_append_dot (cs ds : List Char) (hds : ('.' : Char) ∉ ds) :
    extFrom (cs ++ '.' :: ds) = some ('.' :: ds) := by
  induction cs with
  | nil => simp [extFrom, extFrom_eq_none_of_no_dot ds hds]
  | cons c rest ih => simp [extFrom, ih]

/-- C7 counterexample: the analyzer keeps the dot and so does NOT return
the substring strictly after the last dot — on "a.PDF" it yields ".pdf",
not "pdf". -/
theorem getFileExtension_counterexample :
    getFileExtension "a.PDF" = ".pdf" ∧ getFileExtension "a.PDF" ≠ "pdf" := by
  decide

/-- C7 (amended): for every filename, the computed extension is the
lowercase substring of the filename starting AT (and including) the last
'.', and the empty string when the filename contains no dot. -/
theorem getFileExtension_from_last_dot (cs ds : List Char)
    (hds : ('.' : Char) ∉ ds) :
    getFileExtension (String.mk (cs ++ '.' :: ds)) =
      String.mk (('.' :: ds).map Char.toLower)
    ∧ (('.' : Char) ∉ cs → getFileExtension (String.mk cs) = "") := by
  constructor
  · unfold getFileExtension
    rw [show (String.mk (cs ++ '.' :: ds)).toList = cs ++ '.' :: ds from rfl,
      extFrom_append_dot cs ds hds]
  · intro h
    unfold getFileExtension
    rw [show (String.mk cs).toList = cs from rfl, extFrom_eq_none_of_no_dot cs h]

/-- C7 witness: the filename "a.PDF" split as "a" ++ "." ++ "PDF". -/
theorem getFileExtension_from_last_dot_witness :
    (('.' : Char) ∉ (['P', 'D', 'F'] : List Char))
    ∧ (getFileExtension (String.mk (['a'] ++ '.' :: ['P', 'D', 'F'])) =
        String.mk (('.' :: ['P', 'D', 'F']).map Char.toLower)
      ∧ (('.' : Char) ∉ (['a'] : List Char) →
          getFileExtension (String.mk ['a']) = "")) :=
  ⟨by decide, getFileExtension_from_last_dot ['a'] ['P', 'D', 'F'] (by decide)⟩

/-- C8: when the client-side analysis reports a file as unsupported, the
upload handler short-circuits to an error suggestion (type "error", no
action, severity "high") and never reaches the server analysis step. -/
theorem handleUpload_unsupported_short_circuit (file : JSFile)
    (h : (analyzeFile file).isSupported = false) :
    handleUploadClientCheck file =
      UploadStep.shortCircuit (unsupportedFileSuggestion (analyzeFile file).fileExtension)
    ∧ (unsupportedFileSuggestion (analyzeFile file).fileExtension).type = "error"
    ∧ (unsupportedFileSuggestion (analyzeFile file).fileExtension).action = none
    ∧ (unsupportedFileSuggestion (analyzeFile file).fileExtension).severity = "high"
    ∧ handleUploadClientCheck file ≠ UploadStep.serverAnalyze := by
  have h1 : handleUploadClientCheck file =
      UploadStep.shortCircuit (unsupportedFileSuggestion (analyzeFile file).fileExtension) := by
    simp [handleUploadClientCheck, h]
  refine ⟨h1, rfl, rfl, rfl, ?_⟩
  rw [h1]
  intro hh
  exact UploadStep.noConfusion hh

/-- C8 witness: an "archive.zip" upload (unsupported) short-circuits. -/
theorem handleUpload_unsupported_short_circuit_witness :
    (analyzeFile ⟨"archive.zip", 100, ""⟩).isSupported = false
    ∧ (handleUploadClientCheck ⟨"archive.zip", 100, ""⟩ =
        UploadStep.shortCircuit
          (unsupportedFileSuggestion (analyzeFile ⟨"archive.zip", 100, ""⟩).fileExtension)
      ∧ (unsupportedFileSuggestion (analyzeFile ⟨"archive.zip", 100, ""⟩).fileExtension).type = "error"
      ∧ (unsupportedFileSuggestion (analyzeFile ⟨"archive.zip", 100, ""⟩).fileExtension).action = none
      ∧ (unsupportedFileSuggestion (analyzeFile ⟨"archive.zip", 100, ""⟩).fileExtension).severity = "high"
      ∧ handleUploadClientCheck ⟨"archive.zip", 100, ""⟩ ≠ UploadStep.serverAnalyze) :=
  ⟨by decide, handleUpload_unsupported_short_circuit ⟨"archive.zip", 100, ""⟩ (by decide)⟩

lemma detectAux_isSome (l : List (String × FileCategory)) (ext mime : String)
    (h : ∃ p ∈ l, p.2.extensions.contains ext = true) :
    (detectAux l ext mime).isSome = true := by
  induction l with
  | nil => simp at h
  | cons head tail ih =>
    obtain ⟨ft, info⟩ := head
    simp only [detectAux]
    by_cases h1 : info.extensions.contains ext = true
    · rw [if_pos h1]
      rfl
    · rw [if_neg h1]
      by_cases h2 : info.mimeTypes.contains mime = true
      · rw [if_pos h2]
        rfl
      · rw [if_neg h2]
        apply ih
        rcases h with ⟨p, hp, hex⟩
        rcases List.mem_cons.mp hp with he | hm
        · rw [he] at hex
          exact absurd hex h1
        · exact ⟨p, hm, hex⟩

lemma detectAux_ext_first (l : List (String × FileCategory)) (ext mime : String)
    (pr : String × FileCategory)
    (hfind : l.find? (fun p => p.2.extensions.contains ext) = some pr)
    (hmime : ∀ p ∈ l.takeWhile (fun p => !(p.2.extensions.contains ext)),
        p.2.mimeTypes.contains mime = false) :
    detectAux l ext mime = some pr.1 := by
  induction l with
  | nil => simp at hfind
  | cons head tail ih =>
    obtain ⟨ft, info⟩ := head
    simp only [detectAux]
    by_cases h1 : info.extensions.contains ext = true
    · have hstep : List.find? (fun p : String × FileCategory => p.2.extensions.contains ext)
          ((ft, info) :: tail) = some (ft, info) :=
        List.find?_cons_of_pos tail h1
      rw [hstep] at hfind
      obtain rfl : (ft, info) = pr := Option.some.inj hfind
      rw [if_pos h1]
    · have hstep : List.find? (fun p : String × FileCategory => p.2.extensions.contains ext)
          ((ft, info) :: tail) =
          List.find? (fun p : String × FileCategory => p.2.extensions.contains ext) tail :=
        List.find?_cons_of_neg tail h1
      rw [hstep] at hfind
      rw [if_neg h1]
      have hcontains : info.extensions.contains ext = false := by
        cases hc : info.extensions.contains ext
        · rfl
        · exact absurd hc h1
      have hpa : (!(info.extensions.contains ext)) = true := by
        rw [hcontains]
        rfl
      have htw : ((ft, info) :: tail).takeWhile
            (fun p => !(p.2.extensions.contains ext)) =
          (ft, info) :: tail.takeWhile (fun p => !(p.2.extensions.contains ext)) :=
        List.takeWhile_cons_of_pos hpa
      have h2 : info.mimeTypes.contains mime = false :=
        hmime (ft, info) (by rw [htw]; exact List.mem_cons_self _ _)
      have h2' : ¬(info.mimeTypes.contains mime = true) := by
        rw [h2]
        exact Bool.false_ne_true
      rw [if_neg h2']
      exact ih hfind
        (fun p hp => hmime p (by rw [htw]; exact List.mem_cons_of_mem _ hp))

/-- C1 counterexample: "photo.png" declared with MIME type
"application/pdf" is classified as pdf, not as the image category its
recognized extension belongs to — the MIME match on the earlier pdf table
entry wins over the extension match. -/
theorem analyzeFile_mime_override_counterexample :
    extCategoryOf (analyzeFile ⟨"photo.png", 1000, "application/pdf"⟩).fileExtension =
      some "image"
    ∧ (analyzeFile ⟨"photo.png", 1000, "application/pdf"⟩).isSupported = true
    ∧ (analyzeFile ⟨"photo.png", 1000, "application/pdf"⟩).fileType ≠ some "image"
    ∧ (analyzeFile ⟨"photo.png", 1000, "application/pdf"⟩).fileType = some "pdf" := by
  decide

/-- C1 (amended): for every filename with a recognized extension,
`analyzeFile` returns `isSupported = true` whatever the declared MIME
type; and the `fileType` equals the extension's category provided the
declared MIME type does not belong to the MIME list of a category scanned
STRICTLY BEFORE the extension's category (the `takeWhile` prefix of
entries whose extension lists do not match) — only a MIME match on such
an earlier category preempts the extension; a MIME of a later category
never does. -/
theorem analyzeFile_recognized_extension (file : JSFile) (ft : String)
    (hext : extCategoryOf (getFileExtension file.name) = some ft) :
    (analyzeFile file).isSupported = true
    ∧ ((∀ p ∈ FILE_CATEGORIES.takeWhile
          (fun p => !(p.2.extensions.contains (getFileExtension file.name))),
          p.2.mimeTypes.contains file.type = false) →
        (analyzeFile file).fileType = some ft) := by
  obtain ⟨pr, hfind, hpr⟩ : ∃ pr,
      FILE_CATEGORIES.find?
        (fun p => p.2.extensions.contains (getFileExtension file.name)) = some pr
      ∧ pr.1 = ft := by
    unfold extCategoryOf at hext
    rcases Option.map_eq_some'.mp hext with ⟨pr, hf, h1⟩
    exact ⟨pr, hf, h1⟩
  have hmem : pr ∈ FILE_CATEGORIES := List.mem_of_find?_eq_some hfind
  have hp0 := List.find?_some hfind
  have hp : pr.2.extensions.contains (getFileExtension file.name) = true := hp0
  constructor
  · show (detectAux FILE_CATEGORIES (getFileExtension file.name) file.type).isSome = true
    exact detectAux_isSome _ _ _ ⟨pr, hmem, hp⟩
  · intro hmime
    show detectAux FILE_CATEGORIES (getFileExtension file.name) file.type = some ft
    rw [← hpr]
    exact detectAux_ext_first _ _ _ pr hfind hmime

/-- C1 witness: "photo.png" with its honest MIME type "image/png" — the
only category scanned before image is pdf, whose MIME list does not
contain "image/png". -/
theorem analyzeFile_recognized_extension_witness :
    extCategoryOf (getFileExtension "photo.png") = some "image"
    ∧ ((analyzeFile ⟨"photo.png", 1000, "image/png"⟩).isSupported = true
      ∧ ((∀ p ∈ FILE_CATEGORIES.takeWhile
            (fun p => !(p.2.extensions.contains
              (getFileExtension (JSFile.mk "photo.png" 1000 "image/png").name))),
            p.2.mimeTypes.contains (JSFile.mk "photo.png" 1000 "image/png").type = false) →
          (analyzeFile ⟨"photo.png", 1000, "image/png"⟩).fileType = some "image")) :=
  ⟨by decide, analyzeFile_recognized_extension ⟨"photo.png", 1000, "image/png"⟩ "image"
    (by decide)⟩
